import Mathlib

/-!
Verification of the MorphoCut core graph engine (src/morphocut/core.py)
via a shallow embedding in Lean.

Modelling conventions:
* Python object identity of `Variable` instances is made explicit through a
  numeric `id` field allocated from a monotone counter in the build state;
  the per-record mapping is keyed by this identity, exactly as the Python
  dict is keyed by the `Variable` object itself.
* The process-wide `_pipeline_stack` and the mutable `Pipeline.nodes` lists
  become an explicit `BuildState` record threaded through the construction
  operations; the top of the Python list (its last element) is the head of
  the Lean list.
* Python exceptions (`RuntimeError`, `ValueError`, `KeyError`, the failing
  `assert`) become an `Except PErr` result.  The design document calls the
  `RuntimeError`/`assert` conditions ConfigurationError and the
  `ValueError`/`KeyError` conditions ContractViolationError.
* Callables passed to `LambdaNode` are defunctionalised into the first-order
  type `PyFn` with interpreter `apply_fn`; `getattr`, `operator.getitem` and
  `operator.setitem` are among its constructors.
* The reflective parameter-name discovery of `Node._get_parameter_names`
  (reading same-named instance fields) is replaced by an explicit ordered
  `params` list on the node, as the specification instructs for
  non-reflective reimplementation.
-/

/-- Identity of a `Variable` object (Python object identity made explicit). -/
abbrev VarId := Nat

/-- A symbolic reference: `Variable.__slots__ = ["name", "node"]`, plus the
explicit identity `id`.  `node` is the id of the producing node. -/
structure Variable where
  id : VarId
  name : String
  node : Nat
  deriving Repr, DecidableEq

/-- Defunctionalised Python callables that appear as the `clbl` argument of
`LambdaNode`: the operators `getattr`, `operator.getitem`,
`operator.setitem` used by `Variable.__getattr__` / `__getitem__` /
`__setitem__`, plus the concrete lambdas exercised by the scenarios
(`lambda: n`, `lambda x: x * n`, the identity). -/
inductive PyFn where
  | pgetattr
  | pgetitem
  | psetitem
  | const (n : Int)
  | mulInt (n : Int)
  | ident
  deriving Repr, DecidableEq

/-- Python values flowing through records: `None`, ints, strings, bools,
tuples, dicts (string keys suffice for this development), first-class
callables, and `Variable` objects used as not-yet-resolved arguments. -/
inductive PyVal where
  | none
  | int (n : Int)
  | str (s : String)
  | bool (b : Bool)
  | tuple (vs : List PyVal)
  | dict (kvs : List (String × PyVal))
  | func (f : PyFn)
  | pvar (v : Variable)
  deriving Repr

/-- Python truthiness of a value, as used by `any(values)` in
`Node.prepare_output`: `None`, `0`, `False`, empty strings/tuples/dicts are
falsy; callables and `Variable` objects are truthy like any plain object. -/
def PyVal.truthy : PyVal → Bool
  | .none => false
  | .int n => n ≠ 0
  | .str s => s ≠ ""
  | .bool b => b
  | .tuple vs => ¬ vs.isEmpty
  | .dict kvs => ¬ kvs.isEmpty
  | .func _ => true
  | .pvar _ => true

/-- Errors raised by the core, named after the Python exception classes.
The specification groups `runtimeError`/`assertionError`/`indexError` under
ConfigurationError and `valueError`/`keyError`/`typeError` under
ContractViolationError. -/
inductive PErr where
  | runtimeError (msg : String)
  | valueError (msg : String)
  | keyError
  | typeError
  | assertionError
  | indexError
  deriving Repr, DecidableEq

/-- A record: the per-item mapping from `Variable` identity to resolved
value (a Python dict keyed by the `Variable` objects). -/
abbrev Record := List (VarId × PyVal)

/-- Dictionary lookup `obj[variable]` on a record (first matching key). -/
def record_get (obj : Record) (k : VarId) : Option PyVal :=
  match obj with
  | [] => Option.none
  | (k', v) :: rest => if k' = k then some v else record_get rest k

/-- Dictionary assignment `obj[variable] = r`: replaces the value if the key
is present, otherwise appends the new entry (Python dict insertion order). -/
def record_set (obj : Record) (k : VarId) (v : PyVal) : Record :=
  match obj with
  | [] => [(k, v)]
  | (k', v') :: rest =>
      if k' = k then (k, v) :: rest else (k', v') :: record_set rest k v

mutual

/-- Embedding of `_resolve_variable(obj, variable_or_value)`: a `Variable`
is looked up in the record (`KeyError` if absent), tuples and dicts are
resolved recursively, anything else is returned untouched. -/
def resolve_variable (obj : Record) : PyVal → Except PErr PyVal
  | .pvar v =>
      match record_get obj v.id with
      | some value => .ok value
      | Option.none => .error .keyError
  | .tuple vs =>
      match resolve_list obj vs with
      | .ok vs' => .ok (.tuple vs')
      | .error e => .error e
  | .dict kvs =>
      match resolve_dict obj kvs with
      | .ok kvs' => .ok (.dict kvs')
      | .error e => .error e
  | v => .ok v

/-- Resolve each element of a tuple payload. -/
def resolve_list (obj : Record) : List PyVal → Except PErr (List PyVal)
  | [] => .ok []
  | v :: vs =>
      match resolve_variable obj v, resolve_list obj vs with
      | .ok v', .ok vs' => .ok (v' :: vs')
      | .error e, _ => .error e
      | _, .error e => .error e

/-- Resolve each value of a dict payload. -/
def resolve_dict (obj : Record) : List (String × PyVal) → Except PErr (List (String × PyVal))
  | [] => .ok []
  | (k, v) :: kvs =>
      match resolve_variable obj v, resolve_dict obj kvs with
      | .ok v', .ok kvs' => .ok ((k, v') :: kvs')
      | .error e, _ => .error e
      | _, .error e => .error e

end

/-- Continuation of the `while True` loop of `Node.prepare_output` after
`values = values[0]` replaced the values by the contents of a singleton
tuple: the length check is repeated, and a remaining singleton tuple is
unwrapped again. -/
def unwrap_tuple (n_outputs : Nat) : PyVal → Except PErr (List PyVal)
  | .tuple vs =>
      if vs.length = n_outputs then .ok vs
      else
        match vs with
        | [v] => unwrap_tuple n_outputs v
        | _ =>
            .error (.valueError
              "Length of values does not match number of output ports")
  | _ =>
      .error (.valueError
        "Length of values does not match number of output ports")

/-- Embedding of the `while True` loop of `Node.prepare_output`: as long as
the number of values differs from the number of output ports, a singleton
tuple is replaced by its contents and the check is retried; any other
mismatch raises the length `ValueError`. -/
def unwrap_values (n_outputs : Nat) (values : List PyVal) : Except PErr (List PyVal) :=
  if values.length = n_outputs then .ok values
  else
    match values with
    | [v] => unwrap_tuple n_outputs v
    | _ =>
        .error (.valueError
          "Length of values does not match number of output ports")

/-- Interpreter for the defunctionalised callables: `clbl(*args, **kwargs)`.
A call that does not fit the callable raises `TypeError`, as in Python.
`getattr` on our object universe reads a dict field; `operator.getitem`
indexes a tuple or looks up a dict key; `operator.setitem` mutates its
first argument in place in Python and returns `None` — the mutation targets
the already-resolved container, never the record, and is not observed by
any claim, so only the `None` result is modelled. -/
def apply_fn (f : PyFn) (args : List PyVal) (kwargs : List (String × PyVal)) :
    Except PErr PyVal :=
  match f, args, kwargs with
  | .const n, [], _ => .ok (.int n)
  | .mulInt n, [.int x], _ => .ok (.int (x * n))
  | .ident, [x], _ => .ok x
  | .pgetattr, [.dict kvs, .str name], _ =>
      match kvs.lookup name with
      | some v => .ok v
      | Option.none => .error .typeError
  | .pgetitem, [.tuple vs, .int i], _ =>
      if h : i.toNat < vs.length ∧ 0 ≤ i then .ok (vs.get ⟨i.toNat, h.1⟩)
      else .error .indexError
  | .pgetitem, [.dict kvs, .str name], _ =>
      match kvs.lookup name with
      | some v => .ok v
      | Option.none => .error .keyError
  | .psetitem, [_, _, _], _ => .ok .none
  | _, _, _ => .error .typeError

/-- A constructed graph node.  `id` is the Python object identity of the
node; `outputs` holds the variables bound by `Node.__init__`; `params`
lists, in signature order, the instance fields read by `prepare_input`
(the explicit counterpart of the reflective parameter-name discovery);
`transform` is the per-record transform; `outputs_retrieved` is the
diagnostic flag set by `Node.__call__`. -/
structure GNode where
  id : Nat
  outputs : List Variable
  params : List PyVal
  transform : List PyVal → Except PErr PyVal
  outputs_retrieved : Bool

/-- Result type of `Node.__call__`: `None` for zero ports, the single
variable for one port, the list of variables otherwise. -/
inductive NodeCallReturn where
  | none
  | single (v : Variable)
  | multiple (vs : List Variable)
  deriving Repr

/-- Embedding of `Node.__call__` on a properly constructed node: marks the
outputs as retrieved and returns them according to their number. -/
def node_call (node : GNode) : NodeCallReturn × GNode :=
  let node' := { node with outputs_retrieved := true }
  match node.outputs with
  | [] => (.none, node')
  | [v] => (.single v, node')
  | vs => (.multiple vs, node')

/-- Embedding of `Node.prepare_input(obj, names)` for the stream-transform
call path: each parameter field is resolved against the record in order. -/
def prepare_input (node : GNode) (obj : Record) : Except PErr (List PyVal) :=
  resolve_list obj node.params

/-- Write the resolved output values into the record in port order:
`for variable, r in zip(self.outputs, values): obj[variable] = r`. -/
def write_outputs (outputs : List Variable) (values : List PyVal) (obj : Record) :
    Record :=
  match outputs, values with
  | v :: outputs, r :: values => write_outputs outputs values (record_set obj v.id r)
  | _, _ => obj

/-- Embedding of `Node.prepare_output(obj, *values)`: with zero output
ports any truthy value raises `ValueError`; otherwise the values are
unwrapped until their number matches the port count and are then written
into the record in port order. -/
def prepare_output (node : GNode) (obj : Record) (values : List PyVal) :
    Except PErr Record :=
  if node.outputs.isEmpty then
    if values.any PyVal.truthy then
      .error (.valueError "No output port specified but transform returned a value.")
    else
      .ok obj
  else
    match unwrap_values node.outputs.length values with
    | .ok values => .ok (write_outputs node.outputs values obj)
    | .error e => .error e

/-- Embedding of `Node.transform_stream(stream)`: for each record, resolve
the inputs, run the transform, write the outputs, and yield the extended
record.  The "outputs were not retrieved" warning is non-fatal and the
default `after_stream` hook is a no-op, so neither affects the result. -/
def node_transform_stream (node : GNode) (stream : List Record) :
    Except PErr (List Record) :=
  match stream with
  | [] => .ok []
  | obj :: rest =>
      match prepare_input node obj with
      | .error e => .error e
      | .ok parameters =>
          match node.transform parameters with
          | .error e => .error e
          | .ok result =>
              match prepare_output node obj [result] with
              | .error e => .error e
              | .ok obj' =>
                  match node_transform_stream node rest with
                  | .ok rest' => .ok (obj' :: rest')
                  | .error e => .error e

/-- Chain the stream transforms of a node list in declaration order:
`for node in self.nodes: stream = node.transform_stream(stream)`. -/
def chain_transform_stream (nodes : List GNode) (stream : List Record) :
    Except PErr (List Record) :=
  match nodes with
  | [] => .ok stream
  | node :: rest =>
      match node_transform_stream node stream with
      | .ok stream' => chain_transform_stream rest stream'
      | .error e => .error e

/-- Embedding of `Pipeline.transform_stream(stream=None)`: the default
input is the single empty record `[{}]`. -/
def pipeline_transform_stream (nodes : List GNode) (stream : Option (List Record)) :
    Except PErr (List Record) :=
  chain_transform_stream nodes (stream.getD [[]])

/-- Embedding of `Pipeline.run()`: drains `transform_stream()`.  The drain
discards the records; the model keeps them so that theorems can inspect
what was processed. -/
def pipeline_run (nodes : List GNode) : Except PErr (List Record) :=
  pipeline_transform_stream nodes Option.none

/-- Build-phase state: the fresh-identity counters for variables and nodes,
the node lists of all constructed pipelines (indexed by pipeline id), and
the process-wide `_pipeline_stack` (head of the list = top of the stack =
last element of the Python list). -/
structure BuildState where
  next_var : Nat
  next_node : Nat
  pipeline_store : List (List GNode)
  pipeline_stack : List Nat

/-- Initial build state: no pipelines, empty stack, fresh counters at 0. -/
def init_state : BuildState :=
  { next_var := 0, next_node := 0, pipeline_store := [], pipeline_stack := [] }

/-- Embedding of `Pipeline.__init__`: allocates a new pipeline with an
empty node list and returns its id. -/
def pipeline_new (s : BuildState) : Nat × BuildState :=
  (s.pipeline_store.length,
    { s with pipeline_store := s.pipeline_store ++ [[]] })

/-- Embedding of `Pipeline.__enter__`: pushes the pipeline onto the
process-wide stack. -/
def pipeline_enter (pid : Nat) (s : BuildState) : BuildState :=
  { s with pipeline_stack := pid :: s.pipeline_stack }

/-- Embedding of `Pipeline.__exit__`: pops the stack (`IndexError` when it
is empty) and asserts that the popped pipeline is the one being exited. -/
def pipeline_exit (pid : Nat) (s : BuildState) : Except PErr BuildState :=
  match s.pipeline_stack with
  | [] => .error .indexError
  | item :: rest =>
      if item = pid then .ok { s with pipeline_stack := rest }
      else .error .assertionError

/-- Bind one fresh `Variable` per declared output port, in port order:
the loop `[self.__bind_output(o) for o in outputs]` of `Node.__init__`,
with the fresh object identities made explicit. -/
def bind_outputs (next_var node_id : Nat) : List String → List Variable
  | [] => []
  | name :: ports => Variable.mk next_var name node_id :: bind_outputs (next_var + 1) node_id ports

/-- Embedding of `Node.__init__` for a node type with output-port names
`ports`: binds one fresh variable per port in port order, then registers
the node with the innermost active pipeline, raising
`RuntimeError("Empty pipeline stack")` when the stack is empty. -/
def node_init (ports : List String) (params : List PyVal)
    (tf : List PyVal → Except PErr PyVal) (s : BuildState) :
    Except PErr (GNode × BuildState) :=
  let outputs := bind_outputs s.next_var s.next_node ports
  let node : GNode :=
    { id := s.next_node, outputs := outputs, params := params,
      transform := tf, outputs_retrieved := false }
  match s.pipeline_stack with
  | [] => .error (.runtimeError "Empty pipeline stack")
  | pid :: _ =>
      .ok (node,
        { s with
          next_var := s.next_var + ports.length,
          next_node := s.next_node + 1,
          pipeline_store :=
            s.pipeline_store.set pid (s.pipeline_store.getD pid [] ++ [node]) })

/-- Replace a registered node in every pipeline list by id: the model of
mutating a node object that the pipeline already references. -/
def store_replace (s : BuildState) (node : GNode) : BuildState :=
  { s with pipeline_store :=
      s.pipeline_store.map (fun ns =>
        ns.map (fun n => if n.id = node.id then node else n)) }

/-- Transform of `LambdaNode`: `transform(self, clbl, args, kwargs)`
returns `clbl(*args, **kwargs)`; the three parameters arrive through
`prepare_input` from the fields `clbl`, `args`, `kwargs`. -/
def lambda_transform (ps : List PyVal) : Except PErr PyVal :=
  match ps with
  | [.func f, .tuple args, .dict kwargs] => apply_fn f args kwargs
  | _ => .error .typeError

/-- Embedding of a `LambdaNode(clbl, *args, **kwargs)` call through the
`ReturnOutputs` wrapper: constructs the node (class output list
`[Output("out")]`), then calls it, so the single bound variable is
returned and the registered node object is marked as retrieved. -/
def lambda_node (clbl : PyFn) (args : List PyVal) (kwargs : List (String × PyVal))
    (s : BuildState) : Except PErr (NodeCallReturn × BuildState) :=
  match node_init ["out"] [.func clbl, .tuple args, .dict kwargs] lambda_transform s with
  | .error e => .error e
  | .ok (node, s') =>
      let (ret, node') := node_call node
      .ok (ret, store_replace s' node')

/-- Embedding of `Variable.__getattr__(self, name)`:
`LambdaNode(getattr, self, name)`.  (CPython invokes `__getattr__` only
for attribute names outside `__slots__`; the method itself is modelled.) -/
def variable_getattr (v : Variable) (name : String) (s : BuildState) :
    Except PErr (NodeCallReturn × BuildState) :=
  lambda_node .pgetattr [.pvar v, .str name] [] s

/-- Embedding of `Variable.__getitem__(self, key)`:
`LambdaNode(operator.getitem, self, key)`. -/
def variable_getitem (v : Variable) (key : PyVal) (s : BuildState) :
    Except PErr (NodeCallReturn × BuildState) :=
  lambda_node .pgetitem [.pvar v, key] [] s

/-- Embedding of `Variable.__setitem__(self, key, value)`:
`LambdaNode(operator.setitem, self, key, value)`. -/
def variable_setitem (v : Variable) (key value : PyVal) (s : BuildState) :
    Except PErr (NodeCallReturn × BuildState) :=
  lambda_node .psetitem [.pvar v, key, value] [] s

/-- Meta data stored by the `Output` decorator: `Output(name, doc=None)`. -/
structure OutputDecl where
  name : String
  doc : Option String
  deriving Repr, DecidableEq

/-- A `Node` subclass in the class hierarchy: its parent class (none for
`Node` itself) and, when the class defines `outputs` in its own class
dict, the id of the list object bound there. -/
structure NodeClass where
  parent : Option Nat
  own_outputs : Option Nat
  deriving Repr, DecidableEq

/-- The class-level state touched by the `Output` decorator: the classes by
id and the heap of `outputs` list objects, indexed by list id so that one
list object can be shared between a class and its subclasses. -/
structure ClassTable where
  classes : List NodeClass
  lists : List (List OutputDecl)
  deriving Repr, DecidableEq

/-- Python attribute lookup of `cls.outputs`: walk the ancestor chain until
a class having `outputs` in its own class dict is found, returning the id
of that (shared) list object.  In a well-formed table every parent precedes
its children, which the `p < i` guard enforces to keep the walk total. -/
def find_outputs (ct : ClassTable) (i : Nat) : Option Nat :=
  match ct.classes.get? i with
  | Option.none => Option.none
  | some c =>
      match c.own_outputs with
      | some lid => some lid
      | Option.none =>
          match c.parent with
          | Option.none => Option.none
          | some p => if _ : p < i then find_outputs ct p else Option.none
termination_by i

/-- Embedding of `Output.__call__(cls)` for a class `c` of the table (the
table holds `Node` subclasses only, so the `issubclass` guard is already
satisfied): `outputs = cls.outputs` performs inherited attribute lookup;
on `AttributeError` a fresh empty list is bound to `c` itself; then
`outputs.insert(0, self)` mutates the found list object in place — also
when that object is inherited from an ancestor and shared with it. -/
def output_apply (decl : OutputDecl) (ct : ClassTable) (c : Nat) : ClassTable :=
  match find_outputs ct c with
  | some lid =>
      { ct with lists := ct.lists.set lid (decl :: ct.lists.getD lid []) }
  | Option.none =>
      match ct.classes.get? c with
      | some cls =>
          { classes := ct.classes.set c { cls with own_outputs := some ct.lists.length },
            lists := ct.lists ++ [[decl]] }
      | Option.none => ct

/-- Build phase of the concrete two-node scenario: inside a fresh pipeline,
`a = LambdaNode(lambda: 5)` and `b = LambdaNode(lambda x: x * 2, a)`, then
the pipeline scope is exited.  Returns the two bound variables and the
final build state; the fallback `typeError` branches are unreachable since
`LambdaNode` has exactly one output port. -/
def scenario_c1_build : Except PErr (Variable × Variable × BuildState) :=
  let (pid, s1) := pipeline_new init_state
  let s2 := pipeline_enter pid s1
  match lambda_node (.const 5) [] [] s2 with
  | .ok (.single a, s3) =>
      match lambda_node (.mulInt 2) [.pvar a] [] s3 with
      | .ok (.single b, s4) =>
          match pipeline_exit pid s4 with
          | .ok s5 => .ok (a, b, s5)
          | .error e => .error e
      | .ok (_, _) => .error .typeError
      | .error e => .error e
  | .ok (_, _) => .error .typeError
  | .error e => .error e

/-- Full concrete scenario: build the two-node pipeline, then execute
`P.run()` on its node list, returning the two variables together with the
records that were processed. -/
def scenario_c1_run : Except PErr (Variable × Variable × List Record) :=
  match scenario_c1_build with
  | .ok (a, b, s) =>
      match pipeline_run (s.pipeline_store.getD 0 []) with
      | .ok out => .ok (a, b, out)
      | .error e => .error e
  | .error e => .error e

/-- Build state reached after `scenario_c1_build`: two nodes registered in
pipeline 0, the pipeline scope exited, so the pipeline stack is empty
again while the variables of the two nodes are still in scope. -/
def post_build_state : BuildState :=
  match scenario_c1_build with
  | .ok (_, _, s) => s
  | .error _ => init_state

/-- Modelled from the words of the claim under comparison, not from the
source: a `prepare_output` value adjustment that attempts exactly ONE
unwrap — if a single value was given and it is itself a tuple, substitute
its contents and retry the count check once; if the counts still differ
after that single retry, fail.  The source instead retries in an unbounded
`while True` loop; the two are compared below. -/
def unwrap_values_once (n_outputs : Nat) (values : List PyVal) :
    Except PErr (List PyVal) :=
  if values.length = n_outputs then .ok values
  else
    match values with
    | [.tuple vs] =>
        if vs.length = n_outputs then .ok vs
        else
          .error (.valueError
            "Length of values does not match number of output ports")
    | _ =>
        .error (.valueError
          "Length of values does not match number of output ports")

/-- A concrete node declaring two output ports, for the C3 scenarios. -/
def two_port_node : GNode :=
  { id := 0,
    outputs := [⟨0, "x", 0⟩, ⟨1, "y", 0⟩],
    params := [],
    transform := fun _ => .ok .none,
    outputs_retrieved := true }

/-- A concrete single-output `LambdaNode(lambda: 5)`, for witnesses. -/
def demo_const_node : GNode :=
  { id := 0,
    outputs := [⟨0, "out", 0⟩],
    params := [.func (.const 5), .tuple [], .dict []],
    transform := lambda_transform,
    outputs_retrieved := true }

/-- A concrete node declaring zero output ports whose transform returns
`None`, for witnesses. -/
def zero_port_node : GNode :=
  { id := 0,
    outputs := [],
    params := [],
    transform := fun _ => .ok .none,
    outputs_retrieved := true }

/-- Setting one key leaves the values of all other keys unchanged. -/
theorem record_get_set_ne (obj : Record) (k k' : VarId) (v : PyVal)
    (h : k' ≠ k) : record_get (record_set obj k' v) k = record_get obj k := by
  induction obj with
  | nil => simp [record_set, record_get, h]
  | cons e rest ih =>
      obtain ⟨a, b⟩ := e
      by_cases hak' : a = k'
      · subst hak'
        simp [record_set, record_get, h]
      · by_cases hak : a = k
        · simp [record_set, record_get, hak', hak, Ne.symm h]
        · simp [record_set, record_get, hak', hak, ih]

/-- Writing output values only touches the keys of the written outputs. -/
theorem write_outputs_preserve (outputs : List Variable) (values : List PyVal)
    (obj : Record) (k : VarId) (h : k ∉ outputs.map Variable.id) :
    record_get (write_outputs outputs values obj) k = record_get obj k := by
  induction outputs generalizing values obj with
  | nil => cases values <;> simp [write_outputs]
  | cons v os ih =>
      simp only [List.map_cons, List.mem_cons] at h
      push_neg at h
      cases values with
      | nil => simp [write_outputs]
      | cons r rs =>
          rw [write_outputs, ih rs _ h.2, record_get_set_ne _ _ _ _ (fun he => h.1 he.symm)]

/-- On success `prepare_output` leaves every key outside the node's own
output references unchanged. -/
theorem prepare_output_preserve (node : GNode) (obj : Record)
    (values : List PyVal) (obj' : Record) (k : VarId)
    (hok : prepare_output node obj values = .ok obj')
    (h : k ∉ node.outputs.map Variable.id) :
    record_get obj' k = record_get obj k := by
  rw [prepare_output] at hok
  split at hok
  · split at hok
    · exact absurd hok (by simp)
    · cases hok
      rfl
  · split at hok
    · cases hok
      exact write_outputs_preserve _ _ _ _ h
    · exact absurd hok (by simp)

/-- A node's stream transform yields exactly one record per input record. -/
theorem node_transform_stream_length (node : GNode) :
    ∀ (stream out : List Record),
      node_transform_stream node stream = .ok out → out.length = stream.length := by
  intro stream
  induction stream with
  | nil =>
      intro out h
      rw [node_transform_stream] at h
      cases h
      rfl
  | cons obj rest ih =>
      intro out h
      rw [node_transform_stream] at h
      split at h
      · exact absurd h (by simp)
      · split at h
        · exact absurd h (by simp)
        · split at h
          · exact absurd h (by simp)
          · split at h
            · cases h
              simp [ih _ (by assumption)]
            · exact absurd h (by simp)

/-- Chaining the nodes' stream transforms also preserves the length. -/
theorem chain_transform_stream_length :
    ∀ (nodes : List GNode) (stream out : List Record),
      chain_transform_stream nodes stream = .ok out → out.length = stream.length := by
  intro nodes
  induction nodes with
  | nil =>
      intro stream out h
      rw [chain_transform_stream] at h
      cases h
      rfl
  | cons node rest ih =>
      intro stream out h
      rw [chain_transform_stream] at h
      split at h
      · exact (ih _ _ h).trans (node_transform_stream_length node _ _ (by assumption))
      · exact absurd h (by simp)

/-- Chaining distributes over concatenation of the node list: the records
produced by the first segment are exactly the input of the second. -/
theorem chain_transform_stream_append (ns1 ns2 : List GNode) (stream : List Record) :
    chain_transform_stream (ns1 ++ ns2) stream =
      match chain_transform_stream ns1 stream with
      | .ok mid => chain_transform_stream ns2 mid
      | .error e => .error e := by
  induction ns1 generalizing stream with
  | nil => rfl
  | cons node rest ih =>
      rw [List.cons_append, chain_transform_stream, chain_transform_stream]
      split
      · exact ih _
      · rfl

/-- Pointwise frame property of a node's stream transform: a key that is
not one of the node's own output references keeps its value (or its
absence) in every record of the stream. -/
theorem node_transform_stream_get (node : GNode) (k : VarId)
    (hk : k ∉ node.outputs.map Variable.id) :
    ∀ (stream out : List Record), node_transform_stream node stream = .ok out →
      ∀ (i : Nat) (rec rec' : Record), stream[i]? = some rec → out[i]? = some rec' →
        record_get rec' k = record_get rec k := by
  intro stream
  induction stream with
  | nil =>
      intro out h i rec rec' hs ho
      simp at hs
  | cons obj rest ih =>
      intro out h i rec rec' hs ho
      rw [node_transform_stream] at h
      split at h
      · exact absurd h (by simp)
      · split at h
        · exact absurd h (by simp)
        · split at h
          · exact absurd h (by simp)
          · split at h
            · cases h
              cases i with
              | zero =>
                  simp only [List.getElem?_cons_zero, Option.some.injEq] at hs ho
                  subst hs
                  subst ho
                  exact prepare_output_preserve node _ _ _ k (by assumption) hk
              | succ j =>
                  simp only [List.getElem?_cons_succ] at hs ho
                  exact ih _ (by assumption) j _ _ hs ho
            · exact absurd h (by simp)

/-- Pointwise frame property of the whole chain: a key outside every
node's output references keeps its value through the entire pipeline. -/
theorem chain_transform_stream_get (k : VarId) :
    ∀ (nodes : List GNode) (stream out : List Record),
      chain_transform_stream nodes stream = .ok out →
      (∀ n ∈ nodes, k ∉ n.outputs.map Variable.id) →
      ∀ (i : Nat) (rec rec' : Record), stream[i]? = some rec → out[i]? = some rec' →
        record_get rec' k = record_get rec k := by
  intro nodes
  induction nodes with
  | nil =>
      intro stream out h _ i rec rec' hs ho
      rw [chain_transform_stream] at h
      cases h
      rw [hs] at ho
      cases ho
      rfl
  | cons node rest ih =>
      intro stream out h hnodes i rec rec' hs ho
      rw [chain_transform_stream] at h
      split at h
      case h_1 mid hmid =>
        have hi : i < stream.length := by
          by_contra hge
          rw [List.getElem?_eq_none (by omega)] at hs
          cases hs
        have hmidlen : mid.length = stream.length :=
          node_transform_stream_length node _ _ hmid
        obtain ⟨midrec, hmidrec⟩ : ∃ m, mid[i]? = some m := by
          refine ⟨mid.get ⟨i, by omega⟩, ?_⟩
          simp
        have h1 := node_transform_stream_get node k
          (hnodes node (List.mem_cons_self node rest)) stream mid hmid i rec midrec hs hmidrec
        have h2 := ih mid out h
          (fun n hn => hnodes n (List.mem_cons_of_mem node hn)) i midrec rec' hmidrec ho
        rw [h2, h1]
      · exact absurd h (by simp)

/-- C1: the pipeline built from `a = LambdaNode(lambda: 5)` and
`b = LambdaNode(lambda x: x * 2, a)` processes, under `P.run()`, exactly
one record (the default single empty record), and the final mapping
of that record contains 5 under `a` and 10 under `b`. -/
theorem morphocut_c1 :
    scenario_c1_run =
      .ok (⟨0, "out", 0⟩, ⟨1, "out", 1⟩, [[(0, PyVal.int 5), (1, PyVal.int 10)]]) ∧
    record_get [(0, PyVal.int 5), (1, PyVal.int 10)] 0 = some (PyVal.int 5) ∧
    record_get [(0, PyVal.int 5), (1, PyVal.int 10)] 1 = some (PyVal.int 10) :=
  ⟨rfl, rfl, rfl⟩

/-- C2: over an input sequence of M records, a successful
`Pipeline.transform_stream` yields exactly M records; the node chain
composes in declaration order, each node's output sequence being the next
node's input sequence; and the default input is the single empty record. -/
theorem morphocut_c2 :
    (∀ (nodes : List GNode) (stream out : List Record),
        pipeline_transform_stream nodes (some stream) = .ok out →
          out.length = stream.length) ∧
    (∀ (ns1 ns2 : List GNode) (stream : List Record),
        chain_transform_stream (ns1 ++ ns2) stream =
          match chain_transform_stream ns1 stream with
          | .ok mid => chain_transform_stream ns2 mid
          | .error e => .error e) ∧
    (∀ nodes : List GNode,
        pipeline_transform_stream nodes Option.none =
          chain_transform_stream nodes [[]]) := by
  refine ⟨?_, chain_transform_stream_append, fun _ => rfl⟩
  intro nodes stream out h
  exact chain_transform_stream_length nodes stream out h

/-- Witness for C2 at a concrete pipeline of one constant node over two
input records. -/
theorem morphocut_c2_witness :
    ([[(0, PyVal.int 5)], [(0, PyVal.int 5)]] : List Record).length =
      ([[], []] : List Record).length :=
  morphocut_c2.1 [demo_const_node] [[], []]
    [[(0, PyVal.int 5)], [(0, PyVal.int 5)]] rfl

/-- C5: the active-pipeline stack is LIFO: a correct enter/exit pair
restores the prior state; exiting the inner of two nested pipelines leaves
the outer as the innermost active one; exiting a pipeline that is not the
top of the stack fails the `assert`, and exiting with an empty stack fails
the `pop`. -/
theorem morphocut_c5 :
    (∀ (pid : Nat) (s : BuildState),
        pipeline_exit pid (pipeline_enter pid s) = .ok s) ∧
    (∀ (pid : Nat) (s : BuildState) (rest : List Nat),
        s.pipeline_stack = pid :: rest →
          pipeline_exit pid s = .ok { s with pipeline_stack := rest }) ∧
    (∀ (p1 p2 : Nat) (s : BuildState),
        (pipeline_enter p2 (pipeline_enter p1 s)).pipeline_stack.head? = some p2 ∧
        pipeline_exit p2 (pipeline_enter p2 (pipeline_enter p1 s)) =
          .ok (pipeline_enter p1 s) ∧
        (pipeline_enter p1 s).pipeline_stack.head? = some p1) ∧
    (∀ (pid q : Nat) (s : BuildState) (rest : List Nat),
        s.pipeline_stack = q :: rest → q ≠ pid →
          pipeline_exit pid s = .error .assertionError) ∧
    (∀ (pid : Nat) (s : BuildState),
        s.pipeline_stack = [] → pipeline_exit pid s = .error .indexError) := by
  refine ⟨?_, ?_, ?_, ?_, ?_⟩
  · intro pid s
    simp [pipeline_exit, pipeline_enter]
  · intro pid s rest h
    simp [pipeline_exit, h]
  · intro p1 p2 s
    exact ⟨rfl, by simp [pipeline_exit, pipeline_enter], rfl⟩
  · intro pid q s rest h hne
    simp [pipeline_exit, h, hne]
  · intro pid s h
    simp [pipeline_exit, h]

/-- Witness for C5 at a concrete nested scenario. -/
theorem morphocut_c5_witness :
    pipeline_exit 0 { init_state with pipeline_stack := [0, 1] } =
      .ok { init_state with pipeline_stack := [1] } :=
  morphocut_c5.2.1 0 { init_state with pipeline_stack := [0, 1] } [1] rfl

/-- C8: for a node with zero output ports, `prepare_output` raises the
`ValueError` exactly when some produced value is truthy, and returns the
record unchanged when all produced values are falsy. -/
theorem morphocut_c8 :
    ∀ (node : GNode) (obj : Record) (values : List PyVal),
      node.outputs = [] →
        (prepare_output node obj values =
            .error (.valueError
              "No output port specified but transform returned a value.") ↔
          values.any PyVal.truthy = true) ∧
        (values.any PyVal.truthy = false →
          prepare_output node obj values = .ok obj) := by
  intro node obj values h
  constructor
  · constructor
    · intro herr
      by_contra hfalse
      rw [prepare_output] at herr
      simp [h, Bool.not_eq_true _ ▸ hfalse] at herr
    · intro htrue
      rw [prepare_output]
      simp [h, htrue]
  · intro hfalse
    rw [prepare_output]
    simp [h, hfalse]

/-- Witness for C8: the zero-port node with a falsy (`None`) and with a
truthy (`1`) produced value. -/
theorem morphocut_c8_witness :
    prepare_output zero_port_node [] [PyVal.none] = .ok [] ∧
    prepare_output zero_port_node [] [PyVal.int 1] =
      .error (.valueError
        "No output port specified but transform returned a value.") :=
  ⟨(morphocut_c8 zero_port_node [] [PyVal.none] rfl).2 rfl,
   (morphocut_c8 zero_port_node [] [PyVal.int 1] rfl).1.mpr rfl⟩

/-- C9: `Node.__call__` on a properly constructed node returns `None` for
zero output ports, the single bound reference for one port, the ordered
reference list otherwise, and in every case marks the outputs as
retrieved. -/
theorem morphocut_c9 :
    ∀ node : GNode,
      ((node_call node).2.outputs_retrieved = true ∧
        (node_call node).2 = { node with outputs_retrieved := true }) ∧
      (node.outputs = [] → (node_call node).1 = .none) ∧
      (∀ v, node.outputs = [v] → (node_call node).1 = .single v) ∧
      (2 ≤ node.outputs.length → (node_call node).1 = .multiple node.outputs) := by
  intro node
  refine ⟨⟨?_, ?_⟩, ?_, ?_, ?_⟩
  · rw [node_call]
    split <;> rfl
  · rw [node_call]
    split <;> rfl
  · intro h
    rw [node_call, h]
  · intro v h
    rw [node_call]
    split
    · simp_all
    · simp_all
    · simp_all
  · intro h
    rw [node_call]
    split
    · simp_all
    · simp_all
    · rfl

/-- Witness for C9 at concrete zero-, one- and two-output nodes. -/
theorem morphocut_c9_witness :
    (node_call zero_port_node).1 = .none ∧
    (node_call demo_const_node).1 = .single ⟨0, "out", 0⟩ ∧
    (node_call two_port_node).1 = .multiple [⟨0, "x", 0⟩, ⟨1, "y", 0⟩] ∧
    (node_call two_port_node).2.outputs_retrieved = true :=
  ⟨(morphocut_c9 zero_port_node).2.1 rfl,
   (morphocut_c9 demo_const_node).2.2.1 ⟨0, "out", 0⟩ rfl,
   (morphocut_c9 two_port_node).2.2.2 (by rw [two_port_node]; simp),
   (morphocut_c9 two_port_node).1.1⟩

/-- C3 counterexample: a node declaring two output ports whose transform
returned the once-nested singleton tuple `((1, 2),)` — so `prepare_output`
receives the doubly nested `(((1, 2),),)`.  Under the claimed single-retry
rule the count still differs after one unwrap (1 value vs. 2 ports), so it
must fail; the implemented `while True` loop unwraps a second time and
succeeds, binding both ports. -/
theorem morphocut_c3_counterexample :
    unwrap_values_once 2 [.tuple [.tuple [.int 1, .int 2]]] =
      .error (.valueError
        "Length of values does not match number of output ports") ∧
    prepare_output two_port_node [] [.tuple [.tuple [.int 1, .int 2]]] =
      .ok [(0, PyVal.int 1), (1, PyVal.int 2)] :=
  ⟨rfl, rfl⟩

/-- Unwrapping rule of the implemented loop: a singleton tuple value is
replaced by its contents and the whole check is carried out again — which
may unwrap once more, not at most once. -/
theorem unwrap_values_repeat (n : Nat) (vs : List PyVal) (h : n ≠ 1) :
    unwrap_values n [.tuple vs] = unwrap_values n vs := by
  have h1 : unwrap_values n [.tuple vs] = unwrap_tuple n (.tuple vs) := by
    rw [unwrap_values]
    simp only [List.length_singleton]
    rw [if_neg (fun he => h he.symm)]
  rw [h1]
  cases vs with
  | nil => rfl
  | cons a rest =>
      cases rest with
      | nil => rfl
      | cons b rest2 => rfl

/-- C3 (amended): for a node with at least one output port,
`prepare_output` unwraps REPEATEDLY, not exactly once: whenever the value
count differs from the port count and the values are a single value that
is a tuple, its contents are substituted and the whole check is redone;
the `ValueError` is raised only when the count differs and the values are
not a single tuple.  Concrete scenarios: a two-output node given a 2-tuple
binds the elements in order, given a once-nested 2-tuple succeeds via
unwrapping (and so does a twice-nested one, where the claim as written
demanded failure), and given a 3-tuple fails. -/
theorem morphocut_c3 :
    (∀ (node : GNode) (obj : Record) (values : List PyVal),
        node.outputs ≠ [] →
          prepare_output node obj values =
            match unwrap_values node.outputs.length values with
            | .ok values' => .ok (write_outputs node.outputs values' obj)
            | .error e => .error e) ∧
    (∀ (n : Nat) (vs : List PyVal), n ≠ 1 →
        unwrap_values n [.tuple vs] = unwrap_values n vs) ∧
    (∀ (n : Nat) (values : List PyVal), values.length ≠ n →
        (∀ v : PyVal, values ≠ [v]) →
          unwrap_values n values =
            .error (.valueError
              "Length of values does not match number of output ports")) ∧
    (∀ (n : Nat) (v : PyVal), n ≠ 1 → (∀ vs : List PyVal, v ≠ .tuple vs) →
        unwrap_values n [v] =
          .error (.valueError
            "Length of values does not match number of output ports")) ∧
    prepare_output two_port_node [] [.tuple [.int 1, .int 2]] =
      .ok [(0, PyVal.int 1), (1, PyVal.int 2)] ∧
    prepare_output two_port_node [] [.tuple [.tuple [.int 1, .int 2]]] =
      .ok [(0, PyVal.int 1), (1, PyVal.int 2)] ∧
    prepare_output two_port_node [] [.tuple [.int 1, .int 2, .int 3]] =
      .error (.valueError
        "Length of values does not match number of output ports") := by
  refine ⟨?_, unwrap_values_repeat, ?_, ?_, rfl, rfl, rfl⟩
  · intro node obj values h
    rw [prepare_output, if_neg (fun hh => h (List.isEmpty_iff.mp hh))]
  · intro n values hlen hshape
    cases values with
    | nil =>
        simp [unwrap_values]
        simpa using hlen
    | cons a rest =>
        cases rest with
        | nil => exact absurd rfl (hshape a)
        | cons b r2 =>
            simp [unwrap_values]
            simpa using hlen
  · intro n v hn hshape
    rw [unwrap_values]
    simp only [List.length_singleton]
    rw [if_neg (fun he => hn he.symm)]
    cases v with
    | tuple vs => exact absurd rfl (hshape vs)
    | none => rfl
    | int m => rfl
    | str s => rfl
    | bool b => rfl
    | dict kvs => rfl
    | func f => rfl
    | pvar w => rfl

/-- Witness for C3 (amended) at concrete inputs: the repeated-unwrap rule
applied to the nested tuple, the general characterisation at the two-port
node, and the mismatch failures. -/
theorem morphocut_c3_witness :
    unwrap_values 2 [PyVal.tuple [PyVal.tuple [PyVal.int 1, PyVal.int 2]]] =
      unwrap_values 2 [PyVal.tuple [PyVal.int 1, PyVal.int 2]] ∧
    prepare_output two_port_node [] [PyVal.int 7] =
      (match unwrap_values two_port_node.outputs.length [PyVal.int 7] with
       | .ok values' => .ok (write_outputs two_port_node.outputs values' [])
       | .error e => .error e) ∧
    unwrap_values 2 [PyVal.int 1, PyVal.int 2, PyVal.int 3] =
      .error (.valueError
        "Length of values does not match number of output ports") ∧
    unwrap_values 2 [PyVal.int 7] =
      .error (.valueError
        "Length of values does not match number of output ports") :=
  ⟨morphocut_c3.2.1 2 [PyVal.tuple [PyVal.int 1, PyVal.int 2]] (by decide),
   morphocut_c3.1 two_port_node [] [PyVal.int 7] (by simp [two_port_node]),
   morphocut_c3.2.2.1 2 [PyVal.int 1, PyVal.int 2, PyVal.int 3] (by simp)
     (by intro v hv; simp at hv),
   morphocut_c3.2.2.2.1 2 (PyVal.int 7) (by decide)
     (by intro vs hv; simp at hv)⟩

/-- The bound output variables carry the port names, in port order. -/
theorem bind_outputs_map_name (nid : Nat) :
    ∀ (ports : List String) (nv : Nat),
      (bind_outputs nv nid ports).map Variable.name = ports := by
  intro ports
  induction ports with
  | nil => intro nv; rfl
  | cons p rest ih =>
      intro nv
      rw [bind_outputs, List.map_cons, ih (nv + 1)]

/-- One variable is bound per declared output port. -/
theorem bind_outputs_length (nid : Nat) :
    ∀ (ports : List String) (nv : Nat),
      (bind_outputs nv nid ports).length = ports.length := by
  intro ports
  induction ports with
  | nil => intro nv; rfl
  | cons p rest ih =>
      intro nv
      rw [bind_outputs, List.length_cons, List.length_cons, ih (nv + 1)]

/-- Each bound output variable has a fresh identity from the allocation
window `[next_var, next_var + #ports)` and points back to the node. -/
theorem bind_outputs_mem (nid : Nat) :
    ∀ (ports : List String) (nv : Nat) (v : Variable),
      v ∈ bind_outputs nv nid ports →
        nv ≤ v.id ∧ v.id < nv + ports.length ∧ v.node = nid := by
  intro ports
  induction ports with
  | nil =>
      intro nv v hv
      simp [bind_outputs] at hv
  | cons p rest ih =>
      intro nv v hv
      rw [bind_outputs] at hv
      rcases List.mem_cons.mp hv with h | h
      · subst h
        refine ⟨Nat.le_refl _, ?_, rfl⟩
        simp
      · obtain ⟨h1, h2, h3⟩ := ih (nv + 1) v h
        exact ⟨Nat.le_of_succ_le h1, by simpa [Nat.add_comm, Nat.add_left_comm] using h2, h3⟩

/-- C4: constructing a graph node with an empty pipeline stack fails with
the `RuntimeError`; with a non-empty stack, one reference is bound per
declared output port in port order and the node is appended exactly once
to the node list of the innermost active pipeline, all other pipelines
staying untouched. -/
theorem morphocut_c4 :
    (∀ (ports : List String) (params : List PyVal)
        (tf : List PyVal → Except PErr PyVal) (s : BuildState),
        s.pipeline_stack = [] →
          node_init ports params tf s =
            .error (.runtimeError "Empty pipeline stack")) ∧
    (∀ (ports : List String) (params : List PyVal)
        (tf : List PyVal → Except PErr PyVal) (s : BuildState) (pid : Nat)
        (rest : List Nat),
        s.pipeline_stack = pid :: rest → pid < s.pipeline_store.length →
          ∃ node s', node_init ports params tf s = .ok (node, s') ∧
            node.outputs.map Variable.name = ports ∧
            node.outputs.length = ports.length ∧
            s'.pipeline_store[pid]? =
              some (s.pipeline_store.getD pid [] ++ [node]) ∧
            (∀ q, q ≠ pid →
              s'.pipeline_store[q]? = s.pipeline_store[q]?)) := by
  constructor
  · intro ports params tf s h
    rw [node_init, h]
  · intro ports params tf s pid rest hstack hlt
    simp only [node_init, hstack]
    refine ⟨_, _, rfl, bind_outputs_map_name _ _ _, bind_outputs_length _ _ _, ?_, ?_⟩
    · exact List.getElem?_set_eq_of_lt _ hlt
    · intro q hq
      exact List.getElem?_set_ne (fun he => hq he.symm)

/-- Witness for C4: construction fails on the empty stack of the initial
state and succeeds inside an entered pipeline. -/
theorem morphocut_c4_witness :
    node_init ["out"] [] (fun _ => .ok .none) init_state =
      .error (.runtimeError "Empty pipeline stack") ∧
    ∃ node s',
      node_init ["out"] []  (fun _ => .ok .none)
          (pipeline_enter 0 (pipeline_new init_state).2) = .ok (node, s') ∧
        node.outputs.map Variable.name = ["out"] ∧
        node.outputs.length = ["out"].length ∧
        s'.pipeline_store[0]? =
          some ((pipeline_enter 0 (pipeline_new init_state).2).pipeline_store.getD 0 []
            ++ [node]) ∧
        (∀ q, q ≠ 0 →
          s'.pipeline_store[q]? =
            (pipeline_enter 0 (pipeline_new init_state).2).pipeline_store[q]?) :=
  ⟨morphocut_c4.1 ["out"] [] (fun _ => .ok .none) init_state rfl,
   morphocut_c4.2 ["out"] [] (fun _ => .ok .none)
     (pipeline_enter 0 (pipeline_new init_state).2) 0 [] rfl (by decide)⟩

/-- Inversion of a successful node construction: the resulting node binds
variables from the allocation window `[next_var, next_var + #ports)` of the
pre-state, and the post-state counter sits past that window. -/
theorem node_init_fresh (ports : List String) (params : List PyVal)
    (tf : List PyVal → Except PErr PyVal) (s : BuildState) (node : GNode)
    (s' : BuildState) (h : node_init ports params tf s = .ok (node, s')) :
    ∀ v ∈ node.outputs, s.next_var ≤ v.id ∧ v.id < s'.next_var := by
  cases hstack : s.pipeline_stack with
  | nil =>
      rw [node_init, hstack] at h
      cases h
  | cons pid rest =>
      rw [node_init, hstack] at h
      cases h
      intro v hv
      obtain ⟨h1, h2, _⟩ := bind_outputs_mem s.next_node ports s.next_var v hv
      exact ⟨h1, h2⟩

/-- C7: a record entry a node has written under one of its output
references is never overwritten or removed downstream: `prepare_output`
leaves every key outside the node's own outputs untouched; the chained
stream transforms preserve, record by record, the value under any key that
is not an output of any of the chained nodes; and node construction binds
only fresh identities from at or above the allocation counter, so a later
node's outputs never collide with an earlier node's. -/
theorem morphocut_c7 :
    (∀ (node : GNode) (obj : Record) (values : List PyVal) (obj' : Record)
        (k : VarId),
        prepare_output node obj values = .ok obj' →
          k ∉ node.outputs.map Variable.id →
          record_get obj' k = record_get obj k) ∧
    (∀ (nodes : List GNode) (stream out : List Record) (k : VarId),
        chain_transform_stream nodes stream = .ok out →
          (∀ n ∈ nodes, k ∉ n.outputs.map Variable.id) →
          ∀ (i : Nat) (rec rec' : Record), stream[i]? = some rec →
            out[i]? = some rec' →
            record_get rec' k = record_get rec k) ∧
    (∀ (ports : List String) (params : List PyVal)
        (tf : List PyVal → Except PErr PyVal) (s : BuildState) (node : GNode)
        (s' : BuildState),
        node_init ports params tf s = .ok (node, s') →
          ∀ v ∈ node.outputs, s.next_var ≤ v.id ∧ v.id < s'.next_var) :=
  ⟨fun node obj values obj' k h hk => prepare_output_preserve node obj values obj' k h hk,
   fun nodes stream out k h hk => chain_transform_stream_get k nodes stream out h hk,
   node_init_fresh⟩

/-- Witness for C7: a pre-existing entry under key 5 survives the constant
node, which writes only its own output key 0. -/
theorem morphocut_c7_witness :
    record_get [(5, PyVal.int 9), (0, PyVal.int 5)] 5 =
      record_get [(5, PyVal.int 9)] 5 :=
  morphocut_c7.2.1 [demo_const_node] [[(5, PyVal.int 9)]]
    [[(5, PyVal.int 9), (0, PyVal.int 5)]] 5 rfl
    (by
      intro n hn
      rw [List.mem_singleton] at hn
      subst hn
      decide)
    0 [(5, PyVal.int 9)] [(5, PyVal.int 9), (0, PyVal.int 5)] rfl rfl

/-- Replacing nodes carrying id `i` is the identity on lists that do not
contain that id (no older node shares the identity of a fresh one). -/
theorem map_replace_eq (ns : List GNode) (node : GNode) (i : Nat)
    (h : ∀ n ∈ ns, n.id ≠ i) :
    ns.map (fun n => if n.id = i then node else n) = ns := by
  induction ns with
  | nil => rfl
  | cons a rest ih =>
      rw [List.map_cons, if_neg (h a (List.mem_cons_self a rest)),
        ih (fun n hn => h n (List.mem_cons_of_mem a hn))]

/-- The node object built by `LambdaNode(clbl, *args, **kwargs)` in build
state `s` (`retrieved` distinguishes before and after the call made by the wrapper). -/
def lambda_fresh_node (clbl : PyFn) (args : List PyVal)
    (kwargs : List (String × PyVal)) (s : BuildState) (retrieved : Bool) :
    GNode :=
  { id := s.next_node,
    outputs := [⟨s.next_var, "out", s.next_node⟩],
    params := [.func clbl, .tuple args, .dict kwargs],
    transform := lambda_transform,
    outputs_retrieved := retrieved }

/-- Outcome of a lazy attribute/item access on a variable `v` while a
pipeline is active: a fresh variable distinct from `v`, bound as the single
output of a new `LambdaNode` wrapping the operation `clbl` with arguments
`args`, which is appended to the node list of the innermost active
pipeline `pid`; the pipeline stack is untouched. -/
def lazy_access_ok (result : Except PErr (NodeCallReturn × BuildState))
    (v : Variable) (clbl : PyFn) (args : List PyVal) (s : BuildState)
    (pid : Nat) : Prop :=
  ∃ v' s', result = .ok (.single v', s') ∧
    v' ≠ v ∧ v'.node = s.next_node ∧ v'.name = "out" ∧
    ∃ node, node.id = s.next_node ∧ node.outputs = [v'] ∧
      node.params = [.func clbl, .tuple args, .dict []] ∧
      node.transform = lambda_transform ∧
      node.outputs_retrieved = true ∧
      s'.pipeline_store[pid]? =
        some (s.pipeline_store.getD pid [] ++ [node]) ∧
      s'.pipeline_stack = s.pipeline_stack

/-- Characterisation of a `LambdaNode` construction through the
`ReturnOutputs` wrapper while a pipeline is active. -/
theorem lambda_node_spec (clbl : PyFn) (args : List PyVal) (v : Variable)
    (s : BuildState) (pid : Nat) (rest : List Nat)
    (hstack : s.pipeline_stack = pid :: rest)
    (hlt : pid < s.pipeline_store.length)
    (hv : v.id < s.next_var)
    (hwf : ∀ n ∈ s.pipeline_store.getD pid [], n.id ≠ s.next_node) :
    lazy_access_ok (lambda_node clbl args [] s) v clbl args s pid := by
  have hne : (⟨s.next_var, "out", s.next_node⟩ : Variable) ≠ v := by
    intro he
    have hid : s.next_var = v.id := congrArg Variable.id he
    rw [← hid] at hv
    exact Nat.lt_irrefl _ hv
  have hstore :
      ((s.pipeline_store.set pid
          (s.pipeline_store.getD pid [] ++ [lambda_fresh_node clbl args [] s false])).map
        (fun ns => ns.map (fun n =>
          if n.id = s.next_node then lambda_fresh_node clbl args [] s true
          else n)))[pid]? =
        some (s.pipeline_store.getD pid [] ++ [lambda_fresh_node clbl args [] s true]) := by
    rw [List.getElem?_map, List.getElem?_set_eq_of_lt _ hlt, Option.map_some',
      List.map_append, map_replace_eq _ _ _ hwf]
    simp [lambda_fresh_node]
  exact ⟨⟨s.next_var, "out", s.next_node⟩,
    { next_var := s.next_var + 1,
      next_node := s.next_node + 1,
      pipeline_store := (s.pipeline_store.set pid
          (s.pipeline_store.getD pid [] ++ [lambda_fresh_node clbl args [] s false])).map
        (fun ns => ns.map (fun n =>
          if n.id = s.next_node then lambda_fresh_node clbl args [] s true
          else n)),
      pipeline_stack := s.pipeline_stack },
    by rw [lambda_node, node_init, hstack]; rfl,
    hne, rfl, rfl,
    lambda_fresh_node clbl args [] s true,
    rfl, rfl, rfl, rfl, rfl, hstore, rfl⟩

/-- C6 counterexample: a variable obtained inside a pipeline scope outlives
the scope; after the scope is exited the stack is empty, and requesting an
attribute or item of that variable raises the `RuntimeError` from the
`LambdaNode` construction — it does not "never fail". -/
theorem morphocut_c6_counterexample :
    post_build_state.pipeline_stack = [] ∧
    variable_getattr ⟨0, "out", 0⟩ "shape" post_build_state =
      .error (.runtimeError "Empty pipeline stack") ∧
    variable_getitem ⟨0, "out", 0⟩ (.int 0) post_build_state =
      .error (.runtimeError "Empty pipeline stack") ∧
    variable_setitem ⟨0, "out", 0⟩ (.int 0) (.int 1) post_build_state =
      .error (.runtimeError "Empty pipeline stack") :=
  ⟨rfl, rfl, rfl, rfl⟩

/-- C6 (amended): while at least one Pipeline is active (and the build
state is well formed: the variable was allocated earlier and no registered
node carries the fresh node id), requesting an attribute or an item of a
Symbolic Reference does not fail and touches no record: it returns a new
Symbolic Reference, distinct from the original, bound as the single output
of a newly constructed `LambdaNode` wrapping the attribute-get, item-get
or item-set operation with the original reference as an argument,
registered into the innermost active Pipeline.  With an empty stack the
access raises the empty-pipeline-stack `RuntimeError` instead. -/
theorem morphocut_c6 :
    ∀ (v : Variable) (name : String) (key value : PyVal) (s : BuildState)
      (pid : Nat) (rest : List Nat),
      s.pipeline_stack = pid :: rest →
      pid < s.pipeline_store.length →
      v.id < s.next_var →
      (∀ n ∈ s.pipeline_store.getD pid [], n.id ≠ s.next_node) →
        lazy_access_ok (variable_getattr v name s) v .pgetattr
          [.pvar v, .str name] s pid ∧
        lazy_access_ok (variable_getitem v key s) v .pgetitem
          [.pvar v, key] s pid ∧
        lazy_access_ok (variable_setitem v key value s) v .psetitem
          [.pvar v, key, value] s pid := by
  intro v name key value s pid rest hstack hlt hv hwf
  exact ⟨lambda_node_spec .pgetattr [.pvar v, .str name] v s pid rest hstack hlt hv hwf,
    lambda_node_spec .pgetitem [.pvar v, key] v s pid rest hstack hlt hv hwf,
    lambda_node_spec .psetitem [.pvar v, key, value] v s pid rest hstack hlt hv hwf⟩

/-- Witness for C6 (amended) at a concrete variable and build state with
one active empty pipeline. -/
theorem morphocut_c6_witness :
    lazy_access_ok
      (variable_getattr ⟨0, "out", 0⟩ "shape" ⟨1, 1, [[]], [0]⟩)
      ⟨0, "out", 0⟩ .pgetattr [.pvar ⟨0, "out", 0⟩, .str "shape"]
      ⟨1, 1, [[]], [0]⟩ 0 ∧
    lazy_access_ok
      (variable_getitem ⟨0, "out", 0⟩ (.int 0) ⟨1, 1, [[]], [0]⟩)
      ⟨0, "out", 0⟩ .pgetitem [.pvar ⟨0, "out", 0⟩, .int 0]
      ⟨1, 1, [[]], [0]⟩ 0 ∧
    lazy_access_ok
      (variable_setitem ⟨0, "out", 0⟩ (.int 0) (.int 1) ⟨1, 1, [[]], [0]⟩)
      ⟨0, "out", 0⟩ .psetitem [.pvar ⟨0, "out", 0⟩, .int 0, .int 1]
      ⟨1, 1, [[]], [0]⟩ 0 :=
  morphocut_c6 ⟨0, "out", 0⟩ "shape" (.int 0) (.int 1) ⟨1, 1, [[]], [0]⟩ 0 []
    rfl (by decide) (by decide)
    (by intro n hn; exact absurd hn (List.not_mem_nil n))

/-- The inherited `outputs` lookup depends only on the class hierarchy,
not on the contents of the list objects. -/
theorem find_outputs_classes_eq (ct ct' : ClassTable)
    (h : ct'.classes = ct.classes) :
    ∀ i, find_outputs ct' i = find_outputs ct i := by
  intro i
  induction i using Nat.strong_induction_on with
  | _ i ih =>
      rw [find_outputs, find_outputs, h]
      cases hc : ct.classes.get? i with
      | none => rfl
      | some c =>
          cases hown : c.own_outputs with
          | some lid => simp only [hown]
          | none =>
              cases hpar : c.parent with
              | none => simp only [hown, hpar]
              | some p =>
                  simp only [hown, hpar]
                  by_cases hp : p < i
                  · simp only [hp, dite_true, ih p hp]
                  · simp only [hp, dite_false]

/-- C10: applying the `Output` decorator to a `Node` subclass that only
inherits its `outputs` attribute mutates the inherited, shared list
object: the class hierarchy is unchanged, the new port lands at the front
of the list owned by the ancestor, and every class resolving to that list
— the ancestor and all its other subclasses — sees the new port. -/
theorem morphocut_c10 :
    ∀ (decl : OutputDecl) (ct : ClassTable) (c : Nat) (cls : NodeClass)
      (lid : Nat),
      ct.classes.get? c = some cls → cls.own_outputs = Option.none →
      find_outputs ct c = some lid → lid < ct.lists.length →
        (output_apply decl ct c).classes = ct.classes ∧
        (output_apply decl ct c).lists.getD lid [] =
          decl :: ct.lists.getD lid [] ∧
        (∀ d, find_outputs (output_apply decl ct c) d = find_outputs ct d) := by
  intro decl ct c cls lid hc hown hfind hlt
  have hct : output_apply decl ct c =
      { ct with lists := ct.lists.set lid (decl :: ct.lists.getD lid []) } := by
    rw [output_apply, hfind]
  refine ⟨by rw [hct], ?_, ?_⟩
  · rw [hct]
    show (ct.lists.set lid (decl :: ct.lists.getD lid [])).getD lid [] = _
    rw [List.getD_eq_getElem?_getD, List.getElem?_set_eq_of_lt _ hlt]
    rfl
  · intro d
    exact find_outputs_classes_eq ct (output_apply decl ct c) (by rw [hct]) d

/-- Witness for C10: a two-class table where class 1 inherits the empty
`outputs` list object 0 from its parent class 0; decorating class 1 puts
the new port into list 0, which class 0 also reads. -/
theorem morphocut_c10_witness :
    (output_apply ⟨"out", Option.none⟩
        ⟨[⟨Option.none, some 0⟩, ⟨some 0, Option.none⟩], [[]]⟩ 1).classes =
      [⟨Option.none, some 0⟩, ⟨some 0, Option.none⟩] ∧
    (output_apply ⟨"out", Option.none⟩
        ⟨[⟨Option.none, some 0⟩, ⟨some 0, Option.none⟩], [[]]⟩ 1).lists.getD 0 [] =
      [⟨"out", Option.none⟩] ∧
    (∀ d, find_outputs (output_apply ⟨"out", Option.none⟩
        ⟨[⟨Option.none, some 0⟩, ⟨some 0, Option.none⟩], [[]]⟩ 1) d =
      find_outputs ⟨[⟨Option.none, some 0⟩, ⟨some 0, Option.none⟩], [[]]⟩ d) :=
  morphocut_c10 ⟨"out", Option.none⟩
    ⟨[⟨Option.none, some 0⟩, ⟨some 0, Option.none⟩], [[]]⟩ 1
    ⟨some 0, Option.none⟩ 0 rfl rfl (by simp [find_outputs]) (by decide)
